import Mathlib

/-!
Verification of the oikos economics library (market equilibrium, surpluses,
elasticity, IS-LM renaming, and the equation normalizer).

Shallow embedding conventions:
* Python floats are modelled as exact rationals (`ℚ`).
* The external CAS (sympy) is embedded only on the fragment the library
  actually exercises: curves are linear expressions in the two symbols
  `P` (price) and `Q` (quantity), per the data-model invariant that a
  curve expression contains at most these two free variables.  `solve`,
  `diff` and `integrate` on that fragment have the closed forms used below.
* Fallible Python code (raising `ErrorValidacion` / `ErrorEquilibrio`)
  becomes `Except ErrorOikos`.
-/

namespace Oikos

/-- Embeds `oikos/nucleo/excepciones.py`: the domain error hierarchy.
`excepcionPython` stands for an engine exception the library does not
catch (e.g. `TypeError` from `float()` applied to a symbolic expression,
or `KeyError` on a parametric solution dict). -/
inductive ErrorOikos where
  | errorParseador (ecuacion mensaje : String)
  | errorEquilibrio (mensaje : String)
  | errorValidacion (parametro mensaje : String)
  | errorGrafico (mensaje : String)
  | excepcionPython (mensaje : String)
deriving DecidableEq

instance {ε α : Type} [DecidableEq ε] [DecidableEq α] : DecidableEq (Except ε α) := fun a b =>
  match a, b with
  | .ok x, .ok y => if h : x = y then isTrue (by rw [h]) else isFalse (by simp [h])
  | .error x, .error y => if h : x = y then isTrue (by rw [h]) else isFalse (by simp [h])
  | .ok _, .error _ => isFalse (by simp)
  | .error _, .ok _ => isFalse (by simp)

/-- True exactly when a result is an `ErrorValidacion` failure. -/
def esErrorValidacion {α : Type} : Except ErrorOikos α → Bool
  | .error (.errorValidacion _ _) => true
  | _ => false

/-- True exactly when a result is an `ErrorEquilibrio` failure. -/
def esErrorEquilibrio {α : Type} : Except ErrorOikos α → Bool
  | .error (.errorEquilibrio _) => true
  | _ => false

/-- A numeric argument as received by a Python function: either a value
`float()` can convert, or something non-numeric on which `float()` raises
`TypeError`/`ValueError`. -/
inductive EntradaNum where
  | num (x : ℚ)
  | noNum
deriving DecidableEq

/-- Embeds `validadores.validarPositivo`: coerce to float (non-numeric input
raises a validation error), then reject values `<= 0`. -/
def validarPositivo (valor : EntradaNum) (nombre : String) : Except ErrorOikos ℚ :=
  match valor with
  | .noNum => .error (.errorValidacion nombre "debe ser un numero")
  | .num x =>
    if x ≤ 0 then .error (.errorValidacion nombre "debe ser positivo")
    else .ok x

/-- Embeds `validadores.validarNoNegativo`: coerce to float, then reject
values `< 0`. -/
def validarNoNegativo (valor : EntradaNum) (nombre : String) : Except ErrorOikos ℚ :=
  match valor with
  | .noNum => .error (.errorValidacion nombre "debe ser un numero")
  | .num x =>
    if x < 0 then .error (.errorValidacion nombre "no puede ser negativo")
    else .ok x

/-- Python `str.strip()`: drop leading and trailing whitespace. -/
def recortar (s : String) : String :=
  String.mk (((s.data.dropWhile Char.isWhitespace).reverse.dropWhile Char.isWhitespace).reverse)

/-- Embeds `validadores.validarEcuacion`: the equation text must be a
non-blank string containing at most one sign of equality. -/
def validarEcuacion (ecuacion : String) : Except ErrorOikos Bool :=
  if recortar ecuacion = "" then
    .error (.errorValidacion "ecuacion" "La ecuacion no puede estar vacia")
  else if 1 < ecuacion.data.count '=' then
    .error (.errorValidacion "ecuacion" "La ecuacion solo puede tener un signo de igualdad")
  else
    .ok true

/-- The sympy expression stored by `Demanda`/`Oferta`
(`self.expresion = translatex(ecuacion)`), on the linear two-variable
fragment the library targets: the value `cP * P + cQ * Q + c0`, implicitly
equal to zero. -/
structure ExpresionLineal where
  cP : ℚ
  cQ : ℚ
  c0 : ℚ
deriving DecidableEq

/-- Result of `translatex("Q = a - bP")`: the demand text normalized to
`Q - (a - bP) = bP + Q - a`. -/
def demandaLineal (a b : ℚ) : ExpresionLineal := ⟨b, 1, -a⟩

/-- Result of `translatex("Q = c + dP")`: the supply text normalized to
`Q - (c + dP) = -dP + Q - c`. -/
def ofertaLineal (c d : ℚ) : ExpresionLineal := ⟨-d, 1, -c⟩

/-- Embeds `Demanda.cantidad` / `Oferta.cantidad` (the two method bodies are
identical): validate the price as positive, isolate `Q` with
`solve(expresion, Q)` (empty when the expression does not contain `Q`),
substitute the price, and clamp the result below at zero. -/
def cantidad (expresion : ExpresionLineal) (precio : EntradaNum) : Except ErrorOikos ℚ :=
  match validarPositivo precio "precio" with
  | .error e => .error e
  | .ok p =>
    if expresion.cQ = 0 then
      .error (.errorValidacion "demanda" "No se pudo despejar la cantidad")
    else
      .ok (max 0 (-(expresion.cP * p + expresion.c0) / expresion.cQ))

/-- Embeds `Demanda.precio` / `Oferta.precio`: validate the quantity as
non-negative, isolate `P` with `solve(expresion, P)`, substitute the
quantity, and clamp the result below at zero. -/
def precio (expresion : ExpresionLineal) (cantidad : EntradaNum) : Except ErrorOikos ℚ :=
  match validarNoNegativo cantidad "cantidad" with
  | .error e => .error e
  | .ok q =>
    if expresion.cP = 0 then
      .error (.errorValidacion "demanda" "No se pudo despejar el precio")
    else
      .ok (max 0 (-(expresion.cQ * q + expresion.c0) / expresion.cP))

/-- Embeds `Demanda.elasticidadPrecio` / `Oferta.elasticidadPrecio`:
validate price and quantity as positive, isolate `Q(P)`, differentiate
(`diff` of the linear solution is the constant `-cP / cQ`), evaluate at the
price and multiply by `precio / cantidad`. -/
def elasticidadPrecio (expresion : ExpresionLineal)
    (precioPunto cantidadPunto : EntradaNum) : Except ErrorOikos ℚ :=
  match validarPositivo precioPunto "precio" with
  | .error e => .error e
  | .ok p =>
    match validarPositivo cantidadPunto "cantidad" with
    | .error e => .error e
    | .ok q =>
      if expresion.cQ = 0 then
        .error (.errorValidacion "demanda" "No se pudo calcular elasticidad")
      else
        .ok ((-(expresion.cP / expresion.cQ)) * (p / q))

/-- Output of `solve([e1, e2], [Q, P], dict=True)` on two linear
expressions: a list of numeric `(Q, P)` solutions, or a parametric
solution dict (degenerate consistent system) whose entries are symbolic,
so the callers' `float()` / key lookup raises. -/
inductive SalidaSolve where
  | listaSoluciones (soluciones : List (ℚ × ℚ))
  | parametrica
deriving DecidableEq

/-- Embeds sympy `solve` on the pair of linear curve expressions, by Cramer:
a unique `(Q, P)` pair when the determinant is nonzero, no solution when the
system is inconsistent, and a parametric answer when it is degenerate but
consistent. -/
def solve2 (e1 e2 : ExpresionLineal) : SalidaSolve :=
  let det := e1.cQ * e2.cP - e1.cP * e2.cQ
  if det = 0 then
    if e1.cQ = 0 ∧ e1.cP = 0 then
      if e1.c0 = 0 then
        if e2.cQ = 0 ∧ e2.cP = 0 then
          if e2.c0 = 0 then .parametrica else .listaSoluciones []
        else .parametrica
      else .listaSoluciones []
    else
      if e1.cQ * e2.c0 = e2.cQ * e1.c0 ∧ e1.cP * e2.c0 = e2.cP * e1.c0 then
        .parametrica
      else .listaSoluciones []
  else
    .listaSoluciones
      [((e1.cP * e2.c0 - e1.c0 * e2.cP) / det, (e1.c0 * e2.cQ - e1.cQ * e2.c0) / det)]

/-- Embeds lines 496-524 of `mercado.equilibrio`: the decision policy on the
solver's numeric output.  Empty list or more than one solution raise
`ErrorEquilibrio`; a unique solution with a negative component raises
`ErrorEquilibrio`; otherwise the pair `(P*, Q*)` is returned. -/
def decisionEquilibrio (soluciones : List (ℚ × ℚ)) : Except ErrorOikos (ℚ × ℚ) :=
  match soluciones with
  | [] =>
    .error (.errorEquilibrio "No existe equilibrio para este mercado")
  | [(q, p)] =>
    if q < 0 ∨ p < 0 then
      .error (.errorEquilibrio "El equilibrio calculado tiene valores negativos")
    else
      .ok (p, q)
  | _ =>
    .error (.errorEquilibrio "Existen multiples equilibrios")

/-- Embeds `mercado.equilibrio`: solve the system
`[expresion_oferta, expresion_demanda]` for `[Q, P]` and apply the decision
policy; on a parametric solver answer the uncaught engine exception
propagates. -/
def equilibrio (oferta demanda : ExpresionLineal) : Except ErrorOikos (ℚ × ℚ) :=
  match solve2 oferta demanda with
  | .parametrica => .error (.excepcionPython "conversion de expresion simbolica a float")
  | .listaSoluciones soluciones => decisionEquilibrio soluciones

/-- Embeds the Python builtin `round` to an integer: round half to even. -/
def redondearMitadPar (x : ℚ) : ℤ :=
  let n := Int.floor x
  let f := x - n
  if f < 1 / 2 then n
  else if 1 / 2 < f then n + 1
  else if n % 2 = 0 then n else n + 1

/-- Embeds Python `round(x, 2)`: round to two decimal places, half to even. -/
def redondear2 (x : ℚ) : ℚ := (redondearMitadPar (100 * x) : ℚ) / 100

/-- The result mapping of `mercado.excedentes`: consumer, producer and
social surplus with the price and quantity used. -/
structure ResultadoExcedentes where
  EC : ℚ
  EP : ℚ
  ES : ℚ
  P : ℚ
  Q : ℚ
deriving DecidableEq

/-- Embeds `integrate(solve(e, P)[0], (Q, 0, q))`: the definite integral over
`[0, q]` of the inverse curve `P(Q) = -(cQ * Q + c0) / cP` obtained by
isolating `P` in the linear expression. -/
def integralPrecioInverso (e : ExpresionLineal) (q : ℚ) : ℚ :=
  -(e.cQ * q ^ 2 / 2 + e.c0 * q) / e.cP

/-- Embeds `mercado.excedentes`: default the evaluation point to the
equilibrium (that call sits outside the `try`, so its `ErrorEquilibrio`
propagates unwrapped), isolate both inverse curves (`solve` is empty when
`cP = 0`; every failure inside the `try` is re-raised as
`ErrorValidacion("excedentes", ...)`), integrate them over `[0, Q]`, and
return the three surpluses rounded to two decimals together with the
unrounded price and quantity. -/
def excedentes (oferta demanda : ExpresionLineal)
    (precioArg cantidadArg : Option ℚ) : Except ErrorOikos ResultadoExcedentes :=
  let puntoEval : Except ErrorOikos (ℚ × ℚ) :=
    match precioArg, cantidadArg with
    | some p, some q => .ok (p, q)
    | _, _ => equilibrio oferta demanda
  match puntoEval with
  | .error e => .error e
  | .ok (p, q) =>
    if demanda.cP = 0 then
      .error (.errorValidacion "excedentes" "No se pudieron calcular los excedentes")
    else if oferta.cP = 0 then
      .error (.errorValidacion "excedentes" "No se pudieron calcular los excedentes")
    else
      let excedenteConsumidor := integralPrecioInverso demanda q - p * q
      let excedenteProductor := p * q - integralPrecioInverso oferta q
      let excedenteSocial := excedenteConsumidor + excedenteProductor
      .ok { EC := redondear2 excedenteConsumidor
          , EP := redondear2 excedenteProductor
          , ES := redondear2 excedenteSocial
          , P := p
          , Q := q }

/-- A parsed symbolic expression as a linear combination of named symbols
plus a constant, the fragment of sympy expressions the IS-LM model and the
normalizer exercise. -/
structure ExpresionSimbolica where
  terminos : List (String × ℚ)
  constante : ℚ
deriving DecidableEq

/-- sympy `expr.free_symbols` on the fragment: the names occurring in the
term list. -/
def simbolosLibres (e : ExpresionSimbolica) : List String :=
  e.terminos.map Prod.fst

/-- sympy `expr.subs(viejo, nuevo)` on the fragment: rename a symbol. -/
def sustituirSimbolo (e : ExpresionSimbolica) (viejo nuevo : String) : ExpresionSimbolica :=
  { e with terminos := e.terminos.map fun t => (if t.1 = viejo then nuevo else t.1, t.2) }

/-- Computes `lhs - (rhs)` on parsed expressions. -/
def restaExpresiones (lhs rhs : ExpresionSimbolica) : ExpresionSimbolica :=
  { terminos := lhs.terminos ++ rhs.terminos.map fun t => (t.1, -t.2)
  , constante := lhs.constante - rhs.constante }

/-- Embeds `utils/parser.py` `translatex` after the external `latex2sympy`
has parsed each text segment: the input is the list of segments obtained by
splitting the equation string on the sign of equality (one segment when
none is present).  With a sign present the code uses `parts[0]` and
`parts[1]` only, returning their difference; segments beyond the second are
ignored.  `none` models the print-and-return-`None` failure path (empty
input, where the external parser raises). -/
def translatex (segmentos : List ExpresionSimbolica) : Option ExpresionSimbolica :=
  match segmentos with
  | [] => none
  | [e] => some e
  | e1 :: e2 :: _ => some (restaExpresiones e1 e2)

/-- Python `str.lower()` on the ASCII symbol names the model uses. -/
def minusculaChar (c : Char) : Char :=
  if 'A' ≤ c ∧ c ≤ 'Z' then Char.ofNat (c.toNat + 32) else c

/-- Python `str.lower()` on a symbol name. -/
def minusculas (s : String) : String := String.mk (s.data.map minusculaChar)

/-- Embeds lines 127-138 of `ISLM.equilibrio`: one step of the
interest-rate renaming loop.  The source guards the substitution twice:
`nombre.lower() in ['r', 'rho', 'rate']` and then `s == symbols('r')`;
only when both hold is the symbol substituted by `i` in all three
behavioral expressions. -/
def renombrarTasaPaso (acumulado : ExpresionSimbolica × ExpresionSimbolica × ExpresionSimbolica)
    (s : String) : ExpresionSimbolica × ExpresionSimbolica × ExpresionSimbolica :=
  if (minusculas s = "r" ∨ minusculas s = "rho" ∨ minusculas s = "rate") ∧ s = "r" then
    (sustituirSimbolo acumulado.1 s "i",
     sustituirSimbolo acumulado.2.1 s "i",
     sustituirSimbolo acumulado.2.2 s "i")
  else acumulado

/-- Embeds the full renaming pass of `ISLM.equilibrio`: iterate over the
free symbols of the three original behavioral expressions (the `for` list
is built once, so rebinding inside the loop does not change the symbols
iterated over) and apply `renombrarTasaPaso` to the current triple. -/
def renombrarTasas (cExpr iExpr lExpr : ExpresionSimbolica) :
    ExpresionSimbolica × ExpresionSimbolica × ExpresionSimbolica :=
  (simbolosLibres cExpr ++ simbolosLibres iExpr ++ simbolosLibres lExpr).foldl
    renombrarTasaPaso (cExpr, iExpr, lExpr)

/-- C2 (amended): over any pair of curves, `equilibrio` applies its
decision policy to the solver output: an empty solution list fails with an
equilibrium error; a returned list with more than one solution fails with
an equilibrium error; a unique returned solution with a negative price or
quantity fails with an equilibrium error; and otherwise exactly the
`(price, quantity)` pair is returned.  But when the system is degenerate
and consistent (under-determined, infinitely many intersection points),
the solver returns a single parametric solution instead of a numeric
list and `equilibrio` fails with the uncaught engine exception raised by
`float()` on a symbolic value, not with an equilibrium error. -/
theorem equilibrio_politica_curvas (oferta demanda : ExpresionLineal) :
    (solve2 oferta demanda = .listaSoluciones [] →
      esErrorEquilibrio (equilibrio oferta demanda) = true)
    ∧ (∀ soluciones : List (ℚ × ℚ),
        solve2 oferta demanda = .listaSoluciones soluciones → 1 < soluciones.length →
        esErrorEquilibrio (equilibrio oferta demanda) = true)
    ∧ (∀ q p : ℚ, solve2 oferta demanda = .listaSoluciones [(q, p)] →
        ((q < 0 ∨ p < 0) → esErrorEquilibrio (equilibrio oferta demanda) = true)
        ∧ (0 ≤ q → 0 ≤ p → equilibrio oferta demanda = .ok (p, q)))
    ∧ (solve2 oferta demanda = .parametrica →
        equilibrio oferta demanda =
          .error (.excepcionPython "conversion de expresion simbolica a float")
        ∧ esErrorEquilibrio (equilibrio oferta demanda) = false) := by
  refine ⟨fun h => ?_, fun soluciones h hlen => ?_,
    fun q p h => ⟨fun hneg => ?_, fun hq hp => ?_⟩, fun h => ?_⟩
  · rw [equilibrio, h]
    rfl
  · rw [equilibrio, h]
    rcases soluciones with _ | ⟨⟨qx, px⟩, _ | ⟨⟨qy, py⟩, resto⟩⟩
    · simp at hlen
    · simp at hlen
    · rfl
  · rw [equilibrio, h]
    simp only [decisionEquilibrio]
    rw [if_pos hneg]
    rfl
  · rw [equilibrio, h]
    simp only [decisionEquilibrio]
    rw [if_neg (by push_neg; exact ⟨hq, hp⟩)]
  · rw [equilibrio, h]
    exact ⟨rfl, rfl⟩

/-- Witness for C2: the branches at concrete curves: parallel curves
`Q = 10 - P` and `Q = 20 - P` (empty solver output), supply `Q = -2 + P`
with demand `Q = 1 - P` (unique negative solution), the standard scenario
(admissible unique solution, pair `(24, 52)` returned), and the identical
curves `Q = 10 - P` on both sides (degenerate consistent system, uncaught
engine exception). -/
theorem equilibrio_politica_curvas_witness :
    esErrorEquilibrio (equilibrio ⟨1, 1, -10⟩ ⟨1, 1, -20⟩) = true
    ∧ esErrorEquilibrio (equilibrio (ofertaLineal (-2) 1) (demandaLineal 1 1)) = true
    ∧ equilibrio (ofertaLineal (-20) 3) (demandaLineal 100 2) = .ok (24, 52)
    ∧ equilibrio ⟨1, 1, -10⟩ ⟨1, 1, -10⟩ =
        .error (.excepcionPython "conversion de expresion simbolica a float") := by
  refine ⟨(equilibrio_politica_curvas _ _).1 (by norm_num [solve2]), ?_, ?_, ?_⟩
  · exact ((equilibrio_politica_curvas _ _).2.2.1 (-(1 / 2)) (3 / 2)
      (by norm_num [solve2, ofertaLineal, demandaLineal])).1 (Or.inl (by norm_num))
  · exact ((equilibrio_politica_curvas _ _).2.2.1 52 24
      (by norm_num [solve2, ofertaLineal, demandaLineal])).2 (by norm_num) (by norm_num)
  · exact ((equilibrio_politica_curvas _ _).2.2.2 (by norm_num [solve2])).1

/-- Counterexample for C2 as frozen: the identical curves `Q = 10 - P` on
both sides form a pair whose symbolic system has more than one solution
(every point of the line), yet `equilibrio` does not fail with an
equilibrium error: the solver returns a parametric solution, the length
checks pass, and the uncaught engine exception from `float()` on the
symbolic component propagates instead. -/
theorem equilibrio_degenerado_contraejemplo :
    equilibrio ⟨1, 1, -10⟩ ⟨1, 1, -10⟩ =
      .error (.excepcionPython "conversion de expresion simbolica a float")
    ∧ esErrorEquilibrio (equilibrio ⟨1, 1, -10⟩ ⟨1, 1, -10⟩) = false := by
  have h : solve2 ⟨1, 1, -10⟩ ⟨1, 1, -10⟩ = SalidaSolve.parametrica := by
    norm_num [solve2]
  rw [equilibrio, h]
  exact ⟨rfl, rfl⟩

/-- C1 (amended): for linear demand `Q = a - bP` and supply `Q = c + dP`
with `b, d > 0`, `a > c` and additionally `a*d + b*c ≥ 0` (the equilibrium
quantity is non-negative), `equilibrio` returns `P* = (a-c)/(b+d)` and
`Q* = a - b P*`, both non-negative; and on the concrete scenario
`Demanda("Q = 100 - 2P")`, `Oferta("Q = -20 + 3P")` it returns exactly
`(P*, Q*) = (24, 52)`. -/
theorem equilibrio_lineal_correcto :
    (∀ a b c d : ℚ, 0 < b → 0 < d → c < a → 0 ≤ a * d + b * c →
      equilibrio (ofertaLineal c d) (demandaLineal a b) =
        .ok ((a - c) / (b + d), a - b * ((a - c) / (b + d)))
      ∧ 0 ≤ (a - c) / (b + d) ∧ 0 ≤ a - b * ((a - c) / (b + d)))
    ∧ equilibrio (ofertaLineal (-20) 3) (demandaLineal 100 2) = .ok (24, 52) := by
  constructor
  · intro a b c d hb hd hca hq
    have hbd : (0 : ℚ) < b + d := by linarith
    have hdet : (1 : ℚ) * b - -d * 1 ≠ 0 := by
      intro h
      nlinarith
    have hP : (-c * 1 - 1 * -a) / (1 * b - -d * 1) = (a - c) / (b + d) := by
      rw [show (1 : ℚ) * b - -d * 1 = b + d by ring]
      ring_nf
    have hQval : (-d * -a - -c * b) / (1 * b - -d * 1) = (a * d + b * c) / (b + d) := by
      rw [show (1 : ℚ) * b - -d * 1 = b + d by ring]
      ring_nf
    have hQeq : (a * d + b * c) / (b + d) = a - b * ((a - c) / (b + d)) := by
      field_simp
      ring
    have hQnn : 0 ≤ (a * d + b * c) / (b + d) := div_nonneg hq hbd.le
    have hPnn : 0 ≤ (a - c) / (b + d) := div_nonneg (by linarith) hbd.le
    refine ⟨?_, hPnn, by rw [← hQeq]; exact hQnn⟩
    have hnoneg : ¬(a - b * ((a - c) / (b + d)) < 0 ∨ (a - c) / (b + d) < 0) := by
      push_neg
      exact ⟨by rw [← hQeq]; exact hQnn, hPnn⟩
    simp only [equilibrio, solve2, ofertaLineal, demandaLineal]
    rw [if_neg hdet, hP, hQval, hQeq]
    simp only [decisionEquilibrio]
    rw [if_neg hnoneg]
  · norm_num [equilibrio, solve2, ofertaLineal, demandaLineal, decisionEquilibrio]

/-- Witness for C1: the general statement applied to the concrete scenario
`a = 100, b = 2, c = -20, d = 3`. -/
theorem equilibrio_lineal_correcto_witness :
    equilibrio (ofertaLineal (-20) 3) (demandaLineal 100 2) =
      .ok ((100 - -20) / (2 + 3), 100 - 2 * ((100 - -20) / (2 + 3)))
    ∧ 0 ≤ ((100 : ℚ) - -20) / (2 + 3) := by
  have h := equilibrio_lineal_correcto.1 100 2 (-20) 3 (by norm_num) (by norm_num)
    (by norm_num) (by norm_num)
  exact ⟨h.1, h.2.1⟩

/-- Counterexample for C1 as frozen: the demand `Q = 1 - P` and supply
`Q = -2 + P` satisfy `b, d > 0` and `a > c`, yet `equilibrio` does not
return the intersection pair: the equilibrium quantity `(a*d + b*c)/(b+d)`
is `-1/2 < 0` and the call fails with an equilibrium error. -/
theorem equilibrio_lineal_contraejemplo :
    (0 : ℚ) < 1 ∧ (0 : ℚ) < 1 ∧ (-2 : ℚ) < 1
    ∧ esErrorEquilibrio (equilibrio (ofertaLineal (-2) 1) (demandaLineal 1 1)) = true := by
  norm_num [equilibrio, solve2, ofertaLineal, demandaLineal, decisionEquilibrio,
    esErrorEquilibrio]

/-- C6: for an invertible linear curve (both coefficients nonzero) and an
admissible positive price whose solved quantity needs no clamping,
composing the quantity evaluator and the price evaluator returns the
original price exactly. -/
theorem precio_cantidad_ida_vuelta (e : ExpresionLineal) (p q : ℚ)
    (hcP : e.cP ≠ 0) (hcQ : e.cQ ≠ 0) (hp : 0 < p)
    (hraw : 0 ≤ -(e.cP * p + e.c0) / e.cQ)
    (hq : cantidad e (.num p) = .ok q) :
    precio e (.num q) = .ok p := by
  have hval : validarPositivo (.num p) "precio" = .ok p := by
    simp [validarPositivo, not_le.mpr hp]
  simp only [cantidad, hval] at hq
  rw [if_neg hcQ] at hq
  have hqv : q = -(e.cP * p + e.c0) / e.cQ := by
    have := (Except.ok.injEq _ _).mp hq
    rw [← this, max_eq_right hraw]
  have hqnn : ¬(q < 0) := by rw [hqv]; exact not_lt.mpr hraw
  have hval2 : validarNoNegativo (.num q) "cantidad" = .ok q := by
    simp [validarNoNegativo, hqnn]
  simp only [precio, hval2]
  rw [if_neg hcP]
  have hback : -(e.cQ * q + e.c0) / e.cP = p := by
    rw [hqv]
    field_simp
  rw [hback, max_eq_right hp.le]

/-- Witness for C6: the round trip on `Demanda("Q = 100 - 2P")` at
`p = 10`: the demanded quantity is `80` and the price recovered from `80`
is `10` again. -/
theorem precio_cantidad_ida_vuelta_witness :
    cantidad (demandaLineal 100 2) (.num 10) = .ok 80
    ∧ precio (demandaLineal 100 2) (.num 80) = .ok 10 := by
  have hq : cantidad (demandaLineal 100 2) (.num 10) = .ok 80 := by
    norm_num [cantidad, validarPositivo, demandaLineal]
  exact ⟨hq, precio_cantidad_ida_vuelta (demandaLineal 100 2) 10 80 (by norm_num [demandaLineal])
    (by norm_num [demandaLineal]) (by norm_num) (by norm_num [demandaLineal]) hq⟩

/-- C7: the evaluators raise a validation error on non-numeric and on
negative inputs; on every accepted input where the solve succeeds the
returned value is the solved value clamped below at zero, hence
non-negative. -/
theorem evaluadores_validan_y_recortan :
    (∀ e : ExpresionLineal,
      esErrorValidacion (cantidad e .noNum) = true
      ∧ esErrorValidacion (precio e .noNum) = true
      ∧ ∀ x : ℚ, x < 0 →
          esErrorValidacion (cantidad e (.num x)) = true
          ∧ esErrorValidacion (precio e (.num x)) = true)
    ∧ (∀ (e : ExpresionLineal) (x q : ℚ), cantidad e (.num x) = .ok q →
        q = max 0 (-(e.cP * x + e.c0) / e.cQ) ∧ 0 ≤ q)
    ∧ (∀ (e : ExpresionLineal) (x p : ℚ), precio e (.num x) = .ok p →
        p = max 0 (-(e.cQ * x + e.c0) / e.cP) ∧ 0 ≤ p) := by
  refine ⟨fun e => ⟨rfl, rfl, fun x hx => ?_⟩, fun e x q h => ?_, fun e x p h => ?_⟩
  · constructor
    · simp [cantidad, validarPositivo, le_of_lt hx, esErrorValidacion]
    · simp [precio, validarNoNegativo, hx, esErrorValidacion]
  · rcases hv : validarPositivo (.num x) "precio" with e1 | xv
    · simp only [cantidad, hv] at h
      exact absurd h (by simp)
    · have hxv : xv = x := by
        simp only [validarPositivo] at hv
        split at hv
        · exact absurd hv (by simp)
        · exact ((Except.ok.injEq _ _).mp hv).symm
      subst hxv
      simp only [cantidad, hv] at h
      by_cases hcQ : e.cQ = 0
      · rw [if_pos hcQ] at h
        exact absurd h (by simp)
      · rw [if_neg hcQ] at h
        have hqv := ((Except.ok.injEq _ _).mp h)
        exact ⟨hqv.symm, hqv ▸ le_max_left 0 _⟩
  · rcases hv : validarNoNegativo (.num x) "cantidad" with e1 | xv
    · simp only [precio, hv] at h
      exact absurd h (by simp)
    · have hxv : xv = x := by
        simp only [validarNoNegativo] at hv
        split at hv
        · exact absurd hv (by simp)
        · exact ((Except.ok.injEq _ _).mp hv).symm
      subst hxv
      simp only [precio, hv] at h
      by_cases hcP : e.cP = 0
      · rw [if_pos hcP] at h
        exact absurd h (by simp)
      · rw [if_neg hcP] at h
        have hpv := ((Except.ok.injEq _ _).mp h)
        exact ⟨hpv.symm, hpv ▸ le_max_left 0 _⟩

/-- Witness for C7: the evaluators on `Demanda("Q = 100 - 2P")`: both
reject `-5` and the non-numeric input, and the accepted call at price `60`
returns the clamped value `0`. -/
theorem evaluadores_validan_y_recortan_witness :
    esErrorValidacion (cantidad (demandaLineal 100 2) (.num (-5))) = true
    ∧ cantidad (demandaLineal 100 2) (.num 60) = .ok 0
    ∧ (0 : ℚ) = max 0 (-((demandaLineal 100 2).cP * 60 + (demandaLineal 100 2).c0)
        / (demandaLineal 100 2).cQ) := by
  have h1 := ((evaluadores_validan_y_recortan.1 (demandaLineal 100 2)).2.2 (-5)
    (by norm_num)).1
  have hc : cantidad (demandaLineal 100 2) (.num 60) = .ok 0 := by
    norm_num [cantidad, validarPositivo, demandaLineal]
  have h2 := (evaluadores_validan_y_recortan.2.1 (demandaLineal 100 2) 60 0 hc).1
  exact ⟨h1, hc, h2⟩

/-- C8: on standard downward-sloping demand `Q = a - bP` with `b > 0` the
price elasticity at any strictly positive point is negative; on standard
upward-sloping supply `Q = c + dP` with `d > 0` it is positive. -/
theorem elasticidad_signos (a b c d p q : ℚ)
    (hb : 0 < b) (hd : 0 < d) (hp : 0 < p) (hq : 0 < q) :
    (∃ ε, elasticidadPrecio (demandaLineal a b) (.num p) (.num q) = .ok ε ∧ ε < 0)
    ∧ (∃ η, elasticidadPrecio (ofertaLineal c d) (.num p) (.num q) = .ok η ∧ 0 < η) := by
  have hvp : validarPositivo (.num p) "precio" = .ok p := by
    simp [validarPositivo, not_le.mpr hp]
  have hvq : validarPositivo (.num q) "cantidad" = .ok q := by
    simp [validarPositivo, not_le.mpr hq]
  have hpq : 0 < p / q := div_pos hp hq
  constructor
  · refine ⟨-(b / 1) * (p / q), ?_, ?_⟩
    · simp only [elasticidadPrecio, hvp, hvq, demandaLineal]
      rw [if_neg (one_ne_zero)]
    · have : 0 < b / 1 := by simpa using hb
      nlinarith
  · refine ⟨-(-d / 1) * (p / q), ?_, ?_⟩
    · simp only [elasticidadPrecio, hvp, hvq, ofertaLineal]
      rw [if_neg (one_ne_zero)]
    · have : (0 : ℚ) < d / 1 := by simpa using hd
      nlinarith

/-- Witness for C8: `Demanda("Q = 100 - 2P")` at `(P, Q) = (10, 80)` has
elasticity `-1/4 < 0`; `Oferta("Q = -20 + 3P")` at `(15, 25)` has
elasticity `9/5 > 0`. -/
theorem elasticidad_signos_witness :
    (∃ ε, elasticidadPrecio (demandaLineal 100 2) (.num 10) (.num 80) = .ok ε ∧ ε < 0)
    ∧ (∃ η, elasticidadPrecio (ofertaLineal (-20) 3) (.num 15) (.num 25) = .ok η ∧ 0 < η) := by
  exact ⟨(elasticidad_signos 100 2 (-20) 3 10 80 (by norm_num) (by norm_num) (by norm_num)
      (by norm_num)).1,
    (elasticidad_signos 100 2 (-20) 3 15 25 (by norm_num) (by norm_num) (by norm_num)
      (by norm_num)).2⟩

/-- C10: a price of exactly zero is rejected by the quantity evaluator and
by the elasticity operation, because `validarPositivo` rejects every value
less than or equal to zero. -/
theorem precio_cero_rechazado :
    (∀ nombre : String, esErrorValidacion (validarPositivo (.num 0) nombre) = true)
    ∧ (∀ (nombre : String) (x : ℚ), x ≤ 0 →
        esErrorValidacion (validarPositivo (.num x) nombre) = true)
    ∧ (∀ e : ExpresionLineal, esErrorValidacion (cantidad e (.num 0)) = true)
    ∧ (∀ (e : ExpresionLineal) (valorCantidad : EntradaNum),
        esErrorValidacion (elasticidadPrecio e (.num 0) valorCantidad) = true) := by
  refine ⟨fun nombre => ?_, fun nombre x hx => ?_, fun e => ?_, fun e valorCantidad => ?_⟩
  · simp [validarPositivo, esErrorValidacion]
  · simp [validarPositivo, hx, esErrorValidacion]
  · simp [cantidad, validarPositivo, esErrorValidacion]
  · simp [elasticidadPrecio, validarPositivo, esErrorValidacion]

/-- Witness for C10: the rejection of price zero on
`Demanda("Q = 100 - 2P")`. -/
theorem precio_cero_rechazado_witness :
    esErrorValidacion (cantidad (demandaLineal 100 2) (.num 0)) = true
    ∧ esErrorValidacion
        (elasticidadPrecio (demandaLineal 100 2) (.num 0) (.num 80)) = true
    ∧ (0 : ℚ) ≤ 0
    ∧ esErrorValidacion (validarPositivo (.num 0) "precio") = true := by
  exact ⟨precio_cero_rechazado.2.2.1 (demandaLineal 100 2),
    precio_cero_rechazado.2.2.2 (demandaLineal 100 2) (.num 80),
    le_refl 0,
    precio_cero_rechazado.2.1 "precio" 0 (le_refl 0)⟩

/-- C9: every successful `excedentes` call returns the consumer, producer
and social surpluses rounded to two decimal places, while the `P` and `Q`
entries are the unrounded price and quantity used (the explicit arguments,
or the equilibrium pair when either argument is absent). -/
theorem excedentes_redondeo (oferta demanda : ExpresionLineal)
    (precioArg cantidadArg : Option ℚ) (r : ResultadoExcedentes)
    (h : excedentes oferta demanda precioArg cantidadArg = .ok r) :
    r.EC = redondear2 (integralPrecioInverso demanda r.Q - r.P * r.Q)
    ∧ r.EP = redondear2 (r.P * r.Q - integralPrecioInverso oferta r.Q)
    ∧ r.ES = redondear2 ((integralPrecioInverso demanda r.Q - r.P * r.Q)
        + (r.P * r.Q - integralPrecioInverso oferta r.Q))
    ∧ ((precioArg = some r.P ∧ cantidadArg = some r.Q)
        ∨ equilibrio oferta demanda = .ok (r.P, r.Q)) := by
  rcases precioArg with _ | p0 <;> rcases cantidadArg with _ | q0
  case some.some =>
    simp only [excedentes] at h
    split at h
    · exact absurd h (by simp)
    · split at h
      · exact absurd h (by simp)
      · have hr := (Except.ok.injEq _ _).mp h
        subst hr
        exact ⟨rfl, rfl, rfl, Or.inl ⟨rfl, rfl⟩⟩
  all_goals
    simp only [excedentes] at h
    rcases heq : equilibrio oferta demanda with err | ⟨p, q⟩
    · rw [heq] at h
      exact absurd h (by simp)
    · rw [heq] at h
      simp only [] at h
      split at h
      · exact absurd h (by simp)
      · split at h
        · exact absurd h (by simp)
        · have hr := (Except.ok.injEq _ _).mp h
          subst hr
          exact ⟨rfl, rfl, rfl, Or.inr rfl⟩

/-- Witness for C9: the standard scenario `Demanda("Q = 100 - 2P")`,
`Oferta("Q = -20 + 3P")` with the evaluation point defaulted to the
equilibrium `(24, 52)`: the raw surpluses are `676`, `1352/3` and `3380/3`,
returned as `676`, `450.67` and `1126.67` with `P = 24`, `Q = 52`
unrounded. -/
theorem excedentes_redondeo_witness :
    excedentes (ofertaLineal (-20) 3) (demandaLineal 100 2) none none =
      .ok ⟨676, 45067 / 100, 112667 / 100, 24, 52⟩
    ∧ (676 : ℚ) = redondear2 (integralPrecioInverso (demandaLineal 100 2) 52 - 24 * 52)
    ∧ (45067 / 100 : ℚ) =
        redondear2 (24 * 52 - integralPrecioInverso (ofertaLineal (-20) 3) 52) := by
  have hok : excedentes (ofertaLineal (-20) 3) (demandaLineal 100 2) none none =
      .ok ⟨676, 45067 / 100, 112667 / 100, 24, 52⟩ := by
    norm_num [excedentes, equilibrio, solve2, decisionEquilibrio, ofertaLineal, demandaLineal,
      integralPrecioInverso, redondear2, redondearMitadPar]
  have h := excedentes_redondeo (ofertaLineal (-20) 3) (demandaLineal 100 2) none none
    ⟨676, 45067 / 100, 112667 / 100, 24, 52⟩ hok
  exact ⟨hok, h.1, h.2.1⟩

/-- C3 (amended): with both inverse curves isolable and an explicit
evaluation point, `excedentes` returns the consumer surplus
`integral of the inverse demand over [0, Q] - P*Q` and the producer
surplus `P*Q - integral of the inverse supply over [0, Q]` each rounded to
two decimals, and the social surplus is the rounded sum of the two
unrounded surpluses (so it can differ from the sum of the returned,
rounded, EC and EP). -/
theorem excedentes_formulas (oferta demanda : ExpresionLineal) (p q : ℚ)
    (hDem : demanda.cP ≠ 0) (hOf : oferta.cP ≠ 0) :
    excedentes oferta demanda (some p) (some q) =
      .ok { EC := redondear2 (integralPrecioInverso demanda q - p * q)
          , EP := redondear2 (p * q - integralPrecioInverso oferta q)
          , ES := redondear2 ((integralPrecioInverso demanda q - p * q)
              + (p * q - integralPrecioInverso oferta q))
          , P := p, Q := q } := by
  rw [excedentes]
  simp only []
  rw [if_neg hDem, if_neg hOf]

/-- Witness for C3: the amended statement at the inverse-form curves
`P = 1.04 - 0.2 Q` (demand) and `P = 0.96 + 0.2 Q` (supply) evaluated at
`(P, Q) = (1, 0.2)`. -/
theorem excedentes_formulas_witness :
    excedentes ⟨1, -(1 / 5), -(24 / 25)⟩ ⟨1, 1 / 5, -(26 / 25)⟩ (some 1) (some (1 / 5)) =
      .ok { EC := redondear2 (integralPrecioInverso ⟨1, 1 / 5, -(26 / 25)⟩ (1 / 5) - 1 * (1 / 5))
          , EP := redondear2 (1 * (1 / 5) - integralPrecioInverso ⟨1, -(1 / 5), -(24 / 25)⟩ (1 / 5))
          , ES := redondear2 ((integralPrecioInverso ⟨1, 1 / 5, -(26 / 25)⟩ (1 / 5) - 1 * (1 / 5))
              + (1 * (1 / 5) - integralPrecioInverso ⟨1, -(1 / 5), -(24 / 25)⟩ (1 / 5)))
          , P := 1, Q := 1 / 5 } := by
  exact excedentes_formulas ⟨1, -(1 / 5), -(24 / 25)⟩ ⟨1, 1 / 5, -(26 / 25)⟩ 1 (1 / 5)
    (by norm_num) (by norm_num)

/-- Counterexample for C3 as frozen: demand `P = 1.04 - 0.2 Q`, supply
`P = 0.96 + 0.2 Q`, evaluation point `(P, Q) = (1, 0.2)`.  The raw
surpluses are both `0.004` and their raw sum is `0.008`, so the call
returns `EC = 0`, `EP = 0`, `ES = 0.01`: the returned social surplus is
not the sum of the returned consumer and producer surpluses, and the
returned consumer surplus is not equal to the unrounded
`integral - P*Q`. -/
theorem excedentes_suma_contraejemplo :
    excedentes ⟨1, -(1 / 5), -(24 / 25)⟩ ⟨1, 1 / 5, -(26 / 25)⟩ (some 1) (some (1 / 5)) =
      .ok ⟨0, 0, 1 / 100, 1, 1 / 5⟩
    ∧ (1 / 100 : ℚ) ≠ 0 + 0
    ∧ (0 : ℚ) ≠ integralPrecioInverso ⟨1, 1 / 5, -(26 / 25)⟩ (1 / 5) - 1 * (1 / 5) := by
  norm_num [excedentes, integralPrecioInverso, redondear2, redondearMitadPar]

/-- C5 (amended): the normalizer `translatex` does not reject an input
with more than one sign of equality: it splits on the sign and builds the
difference of the first two segments, ignoring the rest; the
more-than-one-sign rejection is performed by the separate validator
`validarEcuacion`, which raises a validation error (and `translatex` does
not call it). -/
theorem translatex_multiple_igual :
    (∀ (e1 e2 : ExpresionSimbolica) (resto : List ExpresionSimbolica),
      translatex (e1 :: e2 :: resto) = some (restaExpresiones e1 e2))
    ∧ (∀ s : String, 1 < s.data.count '=' →
        esErrorValidacion (validarEcuacion s) = true) := by
  refine ⟨fun e1 e2 resto => rfl, fun s h => ?_⟩
  rw [validarEcuacion]
  by_cases htrim : recortar s = ""
  · rw [if_pos htrim]
    rfl
  · rw [if_neg htrim, if_pos h]
    rfl

/-- Witness for C5: the amended statement at the segment list of
`"Q = 5 = 7"` and at the raw text `"a=b=c"`. -/
theorem translatex_multiple_igual_witness :
    translatex [⟨[("Q", 1)], 0⟩, ⟨[], 5⟩, ⟨[], 7⟩] =
      some (restaExpresiones ⟨[("Q", 1)], 0⟩ ⟨[], 5⟩)
    ∧ 1 < ("a=b=c".data.count '=')
    ∧ esErrorValidacion (validarEcuacion "a=b=c") = true := by
  exact ⟨translatex_multiple_igual.1 ⟨[("Q", 1)], 0⟩ ⟨[], 5⟩ [⟨[], 7⟩],
    by decide, translatex_multiple_igual.2 "a=b=c" (by decide)⟩

/-- Counterexample for C5 as frozen: the input `"Q = 5 = 7"` contains two
signs of equality, yet `translatex` produces a normalized expression
(`Q - 5`, silently dropping the third segment) instead of signaling a
parse error. -/
theorem translatex_multiple_igual_contraejemplo :
    (translatex [⟨[("Q", 1)], 0⟩, ⟨[], 5⟩, ⟨[], 7⟩]).isSome = true
    ∧ translatex [⟨[("Q", 1)], 0⟩, ⟨[], 5⟩, ⟨[], 7⟩] = some ⟨[("Q", 1)], -5⟩ := by
  constructor
  · rfl
  · simp only [translatex, restaExpresiones]
    norm_num

/-- C4: the interest-rate renaming pass of `ISLM.equilibrio` does not
rename `rho` (nor `rate`): the inner guard `s == symbols('r')` only ever
matches the literal symbol `r`, so on behavioral equations written with
`rho` the pass returns the expressions unchanged and the non-canonical
symbol survives into the assembled system, contradicting the claim (and
the code's own comments) that any of `r`, `rho`, `rate` is renamed to `i`.
The last conjunct shows the symbol `r` itself is renamed. -/
theorem renombrarTasas_rho_no_renombrada :
    renombrarTasas ⟨[("Y", 1), ("T", -1)], 200⟩ ⟨[("rho", -50)], 1000⟩
        ⟨[("Y", 1), ("rho", -50)], 0⟩ =
      (⟨[("Y", 1), ("T", -1)], 200⟩, ⟨[("rho", -50)], 1000⟩, ⟨[("Y", 1), ("rho", -50)], 0⟩)
    ∧ "rho" ∈ simbolosLibres (renombrarTasas ⟨[("Y", 1), ("T", -1)], 200⟩
        ⟨[("rho", -50)], 1000⟩ ⟨[("Y", 1), ("rho", -50)], 0⟩).2.1
    ∧ renombrarTasas ⟨[("Y", 1)], 200⟩ ⟨[("r", -50)], 1000⟩ ⟨[("Y", 1), ("r", -50)], 0⟩ =
      (⟨[("Y", 1)], 200⟩, ⟨[("i", -50)], 1000⟩, ⟨[("Y", 1), ("i", -50)], 0⟩) := by
  exact ⟨by decide, by decide, by decide⟩

end Oikos
